import Mathlib

/-!
Shallow embedding of the scene-graph core of the pyg-engine repository
(`src/core/GameObject.{h,cpp}`, `src/core/Component.{h,cpp}`), with theorems
settling the specification claims about it.

Modelling conventions:
* C++ heap pointers to `GameObject` are modelled as numeric object identities
  (`ObjId`) into an explicit world state (`World`); dereferencing a pointer that
  is not live in the world (undefined behavior in C++) yields `none`.
* Operations whose C++ execution can fail to terminate (the destructor ends in
  `delete this`, the copy constructor re-enters itself) are modelled with an
  explicit fuel parameter; exhausting the fuel yields `none`, so an operation
  that returns `none` for every fuel diverges.
* `std::rand()` is modelled as consumption from a stream of naturals carried by
  the world (`rands`); an exhausted stream yields `none`.
* The C++ static accessor `get_object_map()` returns the static
  `std::unordered_map<long, GameObject*>` BY VALUE (its declared return type is
  the map itself, not a reference), so every call hands out a copy and every
  write into that copy is discarded. The world carries the static map's true
  state (`object_map`); reads take a copy of it, and the constructor's write
  `get_object_map()[id_] = this` is modelled as an insertion into the copy that
  is then dropped, exactly as in the source.
-/

namespace Pyg

/-- The C++ enum `Component::property::type` (Component.h). -/
inductive PropType where
  | INT | FLOAT | BOOL | COLOR
  | VECTOR2F | VECTOR2I | VECTOR2U
  | VECTOR3F | VECTOR3I | VECTOR3U
  | TEXTURE | STRING | SF_STRING
  deriving DecidableEq, Repr

/-- The C++ union `Component::property_value` is untagged raw storage that no
function of the embedded core ever reads or interprets (`set_property` is an
empty stub, the lookups compare only `name` and `id`), so its contents are
modelled as an uninterpreted machine word. -/
structure PropertyValue where
  raw : Nat
  deriving DecidableEq, Repr

/-- The C++ struct `Component::property` (Component.h): name, integer id, type
tag, editability flag, and an (untagged) value. -/
structure Property where
  name : String
  id : Int
  type : PropType
  isEditable : Bool
  value : PropertyValue
  deriving DecidableEq, Repr

/-- The C++ class `Component` (Component.h): id, name, and a
`std::vector<property*>` whose entries may be null, modelled as a list of
`Option Property`. -/
structure Component where
  id_ : Int
  name_ : String
  properties_ : List (Option Property)
  deriving DecidableEq, Repr

/-- `Component::get_property` (Component.cpp): returns null unless the name is
nonempty; otherwise a linear scan returning the first non-null entry whose
`name` equals the argument. -/
def Component.get_property (c : Component) (property_name : String) : Option Property :=
  if property_name.isEmpty then none
  else
    c.properties_.findSome? fun p =>
      match p with
      | none => none
      | some prop => if prop.name = property_name then some prop else none

/-- `Component::get_property_by_id` (Component.cpp): returns null unless the id
is nonzero; otherwise a linear scan returning the first non-null entry whose
`id` equals the argument. -/
def Component.get_property_by_id (c : Component) (property_id : Int) : Option Property :=
  if property_id = 0 then none
  else
    c.properties_.findSome? fun p =>
      match p with
      | none => none
      | some prop => if prop.id = property_id then some prop else none

/-- `Component::set_property` (Component.cpp line 11): the body is completely
empty — it performs no lookup, no type check, raises no error and mutates
nothing. The component is returned unchanged. -/
def Component.set_property (c : Component) (property_name : String)
    (value : Property) : Component :=
  c

/-- Heap identity of a `GameObject*` (a pointer value). -/
abbrev ObjId := Nat

/-- The C++ class `GameObject` (GameObject.h): id, enabled flag, name, child
pointer vector, parent pointer (nullable), component pointer vector (entries
may be null). -/
structure GameObject where
  id_ : Int
  enabled_ : Bool
  name_ : String
  children_ : List ObjId
  parent_ : Option ObjId
  components_ : List (Option Component)
  deriving DecidableEq, Repr

/-- Association-list lookup (first match), modelling `unordered_map` access and
pointer dereference. -/
def lookupAssoc {α β : Type} [DecidableEq α] (k : α) :
    List (α × β) → Option β
  | [] => none
  | (a, b) :: rest => if a = k then some b else lookupAssoc k rest

/-- Association-list update of an existing key. -/
def updateAssoc {α β : Type} [DecidableEq α] (k : α) (v : β) :
    List (α × β) → List (α × β)
  | [] => []
  | (a, b) :: rest =>
      if a = k then (a, v) :: rest else (a, b) :: updateAssoc k v rest

/-- `unordered_map` insertion (`m[k] = v`), used on copies of the static map. -/
def insertAssoc {α β : Type} [DecidableEq α] (k : α) (v : β)
    (m : List (α × β)) : List (α × β) :=
  match lookupAssoc k m with
  | some _ => updateAssoc k v m
  | none => (k, v) :: m

/-- Program state: the heap of live `GameObject`s, an allocation counter, the
contents of the static map inside `get_object_map()`, and the remaining
`std::rand()` stream. -/
structure World where
  heap : List (ObjId × GameObject)
  next : ObjId
  object_map : List (Int × ObjId)
  rands : List Nat
  deriving DecidableEq, Repr

/-- Dereference a `GameObject*`. -/
def World.deref (w : World) (p : ObjId) : Option GameObject :=
  lookupAssoc p w.heap

/-- Store through a `GameObject*` (the object must be live). -/
def World.store (w : World) (p : ObjId) (o : GameObject) : World :=
  { w with heap := updateAssoc p o w.heap }

/-- `GameObject::get_object_map()` (GameObject.h lines 72-75): declared as
`static std::unordered_map<long, GameObject*> get_object_map()` — it returns
the function-local static map BY VALUE, i.e. a fresh copy on every call. -/
def World.get_object_map (w : World) : List (Int × ObjId) :=
  w.object_map

/-- `GameObject::get_object_by_id(id)` (GameObject.cpp line 138): returns
`get_object_map()[id]`, an `operator[]` access on a fresh copy of the static
map (missing keys default-construct to null in the copy, which is then
discarded). -/
def GameObject.get_object_by_id (w : World) (id : Int) : Option ObjId :=
  lookupAssoc id w.get_object_map

/-- `GameObject::generate_uid()` (GameObject.h lines 56-62): draw
`static_cast<uint32_t>(std::rand())`, and while `get_object_map()[rng]` (a
lookup in a fresh copy of the static map) is non-null, redraw. Each redraw
consumes the rand stream; an exhausted stream models the loop spinning
forever. Returns the id and the remaining stream. -/
def generate_uid (w : World) : List Nat → Option (Int × List Nat)
  | [] => none
  | r :: rs =>
      let rng : Nat := r % 2 ^ 32
      match GameObject.get_object_by_id w (Int.ofNat rng) with
      | none => some (Int.ofNat rng, rs)
      | some _ => generate_uid w rs

/-- `GameObject::GameObject(const std::string&)` (GameObject.cpp lines 10-22):
auto-generate the id, then execute `get_object_map()[id_] = this` — an
insertion into the BY-VALUE copy returned by the accessor, so the copy is
updated and immediately discarded while the static map itself is untouched.
The new object starts enabled, unnamed-parent, no children, no components. -/
def GameObject.construct (w : World) (name : String) :
    Option (ObjId × World) :=
  match generate_uid w w.rands with
  | none => none
  | some (id, rands1) =>
      let this : ObjId := w.next
      let obj : GameObject :=
        { id_ := id, enabled_ := true, name_ := name,
          children_ := [], parent_ := none, components_ := [] }
      -- `get_object_map()[id_] = this`: the write lands in a temporary copy.
      let discardedCopy := insertAssoc id this w.get_object_map
      let _ := discardedCopy
      some (this, { w with heap := w.heap ++ [(this, obj)],
                           next := this + 1,
                           rands := rands1 })

/-- `GameObject::set_parent` (GameObject.cpp lines 159-161): the entire body is
`this->parent_ = parent;` — no removal from the old parent's children, no
append to the new parent's children, no self-parent or cycle check. -/
def GameObject.set_parent (w : World) (self : ObjId)
    (parent : Option ObjId) : Option World :=
  match w.deref self with
  | none => none
  | some obj => some (w.store self { obj with parent_ := parent })

/-- `GameObject::add_child` (GameObject.cpp lines 74-77): the body is empty —
the call has no effect whatsoever. -/
def GameObject.add_child (w : World) (self : ObjId) (child : ObjId) : World :=
  w

/-- Erase the first occurrence (the loop of `GameObject::remove_child`,
GameObject.cpp lines 79-89, which erases the first pointer-equal entry and
breaks). -/
def removeFirst (x : ObjId) : List ObjId → List ObjId
  | [] => []
  | y :: ys => if y = x then ys else y :: removeFirst x ys

/-- `GameObject::add_component` (GameObject.cpp lines 197-205): null components
are rejected; otherwise the guard `get_object_by_id(component->get_id()) ==
nullptr` consults the (GameObject) registry and, when it reports the id free,
appends the component. -/
def GameObject.add_component (w : World) (self : ObjId)
    (component : Option Component) : Option World :=
  match w.deref self with
  | none => none
  | some obj =>
      match component with
      | none => some w
      | some c =>
          match GameObject.get_object_by_id w c.id_ with
          | none =>
              some (w.store self
                { obj with components_ := obj.components_ ++ [some c] })
          | some _ => some w

/-- Step 1 of `~GameObject` (GameObject.cpp lines 31-34): if the parent pointer
is non-null, call `parent_->remove_child(this)` (erasing the first matching
entry of the parent's child vector) and then null out `parent_`. A dangling
parent pointer would be undefined behavior, modelled as `none`. The self re-read
after the parent store keeps the aliasing of a self-parented object faithful to
the sequential C++ assignments. -/
def detachFromParent (w : World) (self : ObjId) (obj : GameObject) :
    Option World :=
  match obj.parent_ with
  | none => some w
  | some p =>
      match w.deref p with
      | none => none
      | some pobj =>
          let w1 := w.store p
            { pobj with children_ := removeFirst self pobj.children_ }
          match w1.deref self with
          | none => none
          | some obj1 => some (w1.store self { obj1 with parent_ := none })

mutual

/-- C++ `delete p` on a `GameObject*`: run `~GameObject` (GameObject.cpp lines
24-43) to completion, then free the storage. The destructor body is: detach
from the parent; `remove_all_components()` (deletes the owned components —
embedded by value here, so no world effect — WITHOUT clearing the vector);
`remove_all_children()` (deletes each child in order WITHOUT clearing the
vector); and finally `delete this;` (line 42), which re-enters this very
destructor on the same still-allocated object. The trailing free is therefore
unreachable and is omitted. Deleting a pointer that is not live is undefined
behavior, modelled as `none`; fuel exhaustion is `none`. -/
def deleteObject : Nat → World → ObjId → Option World
  | 0, _, _ => none
  | fuel + 1, w, self =>
      match w.deref self with
      | none => none
      | some obj =>
          match detachFromParent w self obj with
          | none => none
          | some w1 =>
              -- remove_all_components(): no world-level effect (see above).
              match deleteChildList fuel w1 obj.children_ with
              | none => none
              | some w2 => deleteObject fuel w2 self
termination_by fuel _ _ => (fuel, 0)

/-- The loop of `GameObject::remove_all_children` (GameObject.cpp lines
220-227): `delete child` for each entry of the child vector in order. The
first child's destructor never returns, so the C++ iterator invalidation
caused by grandchildren detaching mid-loop is unreachable; the model iterates
the snapshot taken at loop entry. -/
def deleteChildList : Nat → World → List ObjId → Option World
  | _, w, [] => some w
  | fuel, w, c :: cs =>
      match deleteObject fuel w c with
      | none => none
      | some w1 => deleteChildList fuel w1 cs
termination_by fuel _ l => (fuel, l.length + 1)

end

/-- `GameObject::destroy()` (GameObject.h lines 26-28): the body is exactly
`delete this;`. -/
def GameObject.destroy (fuel : Nat) (w : World) (self : ObjId) :
    Option World :=
  deleteObject fuel w self

/-- `GameObject::GameObject(const GameObject&)` (GameObject.h lines 19-23): the
body begins with `const auto game_object = new GameObject(obj);`, which
re-invokes this same copy constructor on `obj` before anything else; the
`set_name`/`set_parent` calls on the inner object follow only after that inner
construction returns. Fuel exhaustion (`none`) models the unbounded
re-entry. -/
def copyConstruct : Nat → World → GameObject → Option (ObjId × World)
  | 0, _, _ => none
  | fuel + 1, w, obj =>
      match copyConstruct fuel w obj with
      | none => none
      | some (inner, w1) =>
          -- game_object->set_name(this->name_); game_object->set_parent(this->parent_);
          match w1.deref inner with
          | none => none
          | some iobj =>
              let w2 :=
                if obj.name_.isEmpty then w1
                else w1.store inner { iobj with name_ := obj.name_ }
              match GameObject.set_parent w2 inner obj.parent_ with
              | none => none
              | some w3 =>
                  -- allocate `this` itself (its fields keep their defaults:
                  -- the copy constructor body never assigns them)
                  let this : ObjId := w3.next
                  let selfObj : GameObject :=
                    { id_ := 0, enabled_ := true, name_ := "",
                      children_ := [], parent_ := none, components_ := [] }
                  some (this, { w3 with heap := w3.heap ++ [(this, selfObj)],
                                        next := this + 1 })

/-- `GameObject::clone()` (GameObject.cpp lines 163-165): `return new
GameObject(*this);` — dereference `this` and run the copy constructor on it. -/
def GameObject.clone (fuel : Nat) (w : World) (self : ObjId) :
    Option (ObjId × World) :=
  match w.deref self with
  | none => none
  | some obj => copyConstruct fuel w obj

/-- The dispatch trace of the loop in `GameObject::update` (GameObject.cpp
lines 207-214): null entries are skipped (`continue`), every other component
receives a `component->update()` call, in vector order. -/
def updateTrace : List (Option Component) → List Component
  | [] => []
  | none :: rest => updateTrace rest
  | some c :: rest => c :: updateTrace rest

/-- `GameObject::update(delta_time)` (GameObject.cpp lines 207-214): iterate
the component vector, skipping nulls, calling `update()` on each component.
`Component::update` (Component.cpp line 23) has an empty body, so the world is
unchanged; the result records the world together with the sequence of
components dispatched to, in order. `delta_time` is unused by the source. -/
def GameObject.update (w : World) (self : ObjId) (delta_time : Int) :
    Option (World × List Component) :=
  match w.deref self with
  | none => none
  | some obj => some (w, updateTrace obj.components_)

/-! ## Concrete fixtures

Worlds used to evaluate the operations on concrete inputs. Every reachable
world has `object_map = []`: the static map starts empty and no operation ever
writes through to it (all writes land in the by-value copies). -/

/-- Empty world with two queued `std::rand()` draws that happen to coincide
(perfectly possible for a pseudo-random source). -/
def w0 : World := { heap := [], next := 0, object_map := [], rands := [5, 5] }

/-- The node produced by the first construction from `w0`. -/
def objA5 : GameObject :=
  { id_ := 5, enabled_ := true, name_ := "a",
    children_ := [], parent_ := none, components_ := [] }

/-- The node produced by the second construction from `w0`. -/
def objB5 : GameObject :=
  { id_ := 5, enabled_ := true, name_ := "b",
    children_ := [], parent_ := none, components_ := [] }

/-- `w0` after one construction. -/
def wA : World :=
  { heap := [(0, objA5)], next := 1, object_map := [], rands := [5] }

/-- `w0` after two constructions: two live nodes sharing id 5, registry still
empty. -/
def wB : World :=
  { heap := [(0, objA5), (1, objB5)], next := 2, object_map := [], rands := [] }

/-- Parent node at address 0 holding address 1 as its only child. -/
def nodeP : GameObject :=
  { id_ := 10, enabled_ := true, name_ := "P",
    children_ := [1], parent_ := none, components_ := [] }

/-- Child node at address 1, parented to address 0. -/
def nodeA : GameObject :=
  { id_ := 11, enabled_ := true, name_ := "A",
    children_ := [], parent_ := some 0, components_ := [] }

/-- Unrelated root node at address 2. -/
def nodeB : GameObject :=
  { id_ := 12, enabled_ := true, name_ := "B",
    children_ := [], parent_ := none, components_ := [] }

/-- Three-node world: P(0) with child A(1), and root B(2). -/
def wPAB : World :=
  { heap := [(0, nodeP), (1, nodeA), (2, nodeB)], next := 3,
    object_map := [], rands := [] }

/-- `wPAB` after `set_parent(A, B)`: only A's back-reference changed. -/
def wPAB3 : World :=
  { heap := [(0, nodeP), (1, { nodeA with parent_ := some 2 }), (2, nodeB)],
    next := 3, object_map := [], rands := [] }

/-- `wPAB` after the self-parenting call `set_parent(A, A)`. -/
def wPAB4 : World :=
  { heap := [(0, nodeP), (1, { nodeA with parent_ := some 1 }), (2, nodeB)],
    next := 3, object_map := [], rands := [] }

/-- A childless, componentless node at address 0. -/
def nodeSolo : GameObject :=
  { id_ := 3, enabled_ := true, name_ := "solo",
    children_ := [], parent_ := none, components_ := [] }

/-- One-node world for the component tests. -/
def wNode : World :=
  { heap := [(0, nodeSolo)], next := 1, object_map := [], rands := [] }

/-- First component with id 7. -/
def compF : Component := { id_ := 7, name_ := "first", properties_ := [] }

/-- Second, distinct component sharing id 7. -/
def compS : Component := { id_ := 7, name_ := "second", properties_ := [] }

/-- `wNode` after adding `compF`. -/
def wNode1 : World :=
  { heap := [(0, { nodeSolo with components_ := [some compF] })], next := 1,
    object_map := [], rands := [] }

/-- `wNode` after adding `compF` and then the same-id `compS`. -/
def wNode2 : World :=
  { heap := [(0, { nodeSolo with components_ := [some compF, some compS] })],
    next := 1, object_map := [], rands := [] }

/-- A float-typed property. -/
def healthProp : Property :=
  { name := "health", id := 1, type := PropType.FLOAT, isEditable := true,
    value := ⟨0⟩ }

/-- Component holding the float property `health`. -/
def compH : Component :=
  { id_ := 2, name_ := "stats", properties_ := [some healthProp] }

/-- A color-typed argument aimed at the float property (a type mismatch). -/
def colorArg : Property :=
  { name := "health", id := 1, type := PropType.COLOR, isEditable := true,
    value := ⟨9⟩ }

/-- Node with two components and a null entry between them in its vector. -/
def nodeUpd : GameObject :=
  { id_ := 4, enabled_ := true, name_ := "upd",
    children_ := [], parent_ := none,
    components_ := [some compF, none, some compS] }

/-- One-node world for the update-dispatch test. -/
def wUpd : World :=
  { heap := [(0, nodeUpd)], next := 1, object_map := [], rands := [] }

/-! ## Theorems -/

/-- The destructor never completes: every branch of `~GameObject` ends by
re-entering `delete this` on the same object, so `deleteObject` yields `none`
at every fuel. -/
theorem deleteObject_always_none :
    ∀ (fuel : Nat) (w : World) (self : ObjId),
      deleteObject fuel w self = none := by
  intro fuel
  induction fuel with
  | zero => intro w self; simp only [deleteObject]
  | succ n ih =>
      intro w self
      simp only [deleteObject]
      split
      · rfl
      · split
        · rfl
        · split
          · rfl
          · exact ih _ _

/-- C1: the claim says `destroy()` detaches the node, destroys components and
children, deregisters it from the global id table, and is an idempotent no-op
on a second call. In the source `destroy()` is `delete this` and `~GameObject`
itself ends with `delete this` (GameObject.cpp line 42), re-destroying the same
object unboundedly, and the registry erase is an unfilled TODO — so destruction
never completes at any fuel, for any world and any node. -/
theorem C1_destroy_never_completes (fuel : Nat) (w : World) (self : ObjId) :
    GameObject.destroy fuel w self = none :=
  deleteObject_always_none fuel w self

/-- C2: the claim says the global registry maps each live node's id to the
node, auto ids are distinct among live nodes, and `get_object_by_id` finds a
just-constructed node. In the source `get_object_map()` returns the static map
by value, so the constructor's registration is written into a discarded copy:
constructing twice from the empty world with rand stream `[5, 5]` yields two
live nodes both carrying id 5, and `get_object_by_id 5` still returns null. -/
theorem C2_registry_never_updated :
    GameObject.construct w0 "a" = some (0, wA) ∧
    GameObject.construct wA "b" = some (1, wB) ∧
    (wB.deref 0).map GameObject.id_ = some 5 ∧
    (wB.deref 1).map GameObject.id_ = some 5 ∧
    GameObject.get_object_by_id wB 5 = none :=
  ⟨rfl, rfl, rfl, rfl, rfl⟩

/-- C3: the claim says `set_parent(A, B)` removes A from its previous parent's
children and appends it to B's children. The source body is only
`this->parent_ = parent;`: after the call A's back-reference is B, yet A is
still listed among P's children and absent from B's children — so A sits in the
children list of a node that is no longer its parent. -/
theorem C3_set_parent_only_sets_backref :
    GameObject.set_parent wPAB 1 (some 2) = some wPAB3 ∧
    (wPAB3.deref 1).map GameObject.parent_ = some (some 2) ∧
    (wPAB3.deref 0).map GameObject.children_ = some [1] ∧
    (wPAB3.deref 2).map GameObject.children_ = some [] :=
  ⟨rfl, rfl, rfl, rfl⟩

/-- C4: the claim says `set_parent(A, A)` (and any cycle-introducing reparent)
fails with `InvalidHierarchyError` leaving the tree unchanged. The source
performs no hierarchy validation at all and has no failure path on a live
node: the self-parenting call succeeds and records A as its own parent. -/
theorem C4_self_parenting_accepted :
    GameObject.set_parent wPAB 1 (some 1) = some wPAB4 ∧
    (wPAB4.deref 1).map GameObject.parent_ = some (some 1) :=
  ⟨rfl, rfl⟩

/-- C5: the claim says `add_child(P, C)` is equivalent to `set_parent(C, P)`.
The source's `add_child` has an empty body: it changes nothing (B stays out of
P's children and keeps a null parent), while `set_parent(B, P)` does change the
world — so the two calls are not equivalent. -/
theorem C5_add_child_is_noop :
    GameObject.add_child wPAB 0 2 = wPAB ∧
    (wPAB.deref 0).map GameObject.children_ = some [1] ∧
    (wPAB.deref 2).map GameObject.parent_ = some none ∧
    GameObject.set_parent wPAB 2 (some 0) ≠ some wPAB := by
  refine ⟨rfl, rfl, rfl, ?_⟩
  decide

/-- C6: the claim says a second `add_component` with an already-registered
component id is a no-op, leaving exactly one registered component. The
source's guard consults `get_object_by_id` — the GameObject registry, which
components never enter and which in any case reads a permanently-empty copy of
the static map — so adding two components that share id 7 registers both. -/
theorem C6_duplicate_component_id_not_rejected :
    GameObject.add_component wNode 0 (some compF) = some wNode1 ∧
    GameObject.add_component wNode1 0 (some compS) = some wNode2 ∧
    ((wNode2.deref 0).map fun o => o.components_.length) = some 2 :=
  ⟨rfl, rfl, rfl⟩

/-- C7: the claim says `set_property` fails with `TypeMismatchError` on a type
tag mismatch and with `NotFoundError` on an unknown name. The source body is
empty: a color-tagged write to the float property `health` and a write to a
nonexistent name both return without any error and without any effect (the
stored property is unchanged — the only part of the claim the code meets). -/
theorem C7_set_property_never_fails :
    compH.set_property "health" colorArg = compH ∧
    compH.set_property "missing" colorArg = compH ∧
    (compH.set_property "health" colorArg).get_property "health"
      = some healthProp := by
  refine ⟨rfl, rfl, ?_⟩
  decide

/-- The dispatch trace of `GameObject::update` is the component vector with
null entries dropped, in order. -/
theorem updateTrace_eq_reduceOption :
    ∀ l : List (Option Component), updateTrace l = l.reduceOption := by
  intro l
  induction l with
  | nil => rfl
  | cons hd tl ih => cases hd <;> simp [updateTrace, List.reduceOption_cons_of_some, ih]

/-- C8: `update(delta_time)` dispatches `update` to exactly the attached
(non-null) components in insertion order, and touches nothing else: the world
— in particular every child node — is returned unchanged, so no recursion into
children occurs. -/
theorem C8_update_dispatch (w : World) (self : ObjId) (delta_time : Int)
    (obj : GameObject) (h : w.deref self = some obj) :
    GameObject.update w self delta_time
        = some (w, obj.components_.reduceOption) := by
  simp only [GameObject.update, h, updateTrace_eq_reduceOption]

/-- Witness for C8: in the one-node world `wUpd`, updating node 0 leaves the
world unchanged and dispatches to `compF` then `compS`, skipping the null
entry between them. -/
theorem C8_update_dispatch_witness :
    GameObject.update wUpd 0 16 = some (wUpd, nodeUpd.components_.reduceOption) :=
  C8_update_dispatch wUpd 0 16 nodeUpd rfl

/-- C10: the empty string and the id 0 are reserved never-found keys of the
component property lookups: `get_property ""` and `get_property_by_id 0`
return not-found for every component, even one whose bag holds an entry named
`""` or carrying id 0, because both lookups guard on the key before scanning
(Component.cpp lines 28 and 42). -/
theorem C10_reserved_lookup_keys (c : Component) :
    c.get_property "" = none ∧ c.get_property_by_id 0 = none :=
  ⟨rfl, rfl⟩

/-- The copy constructor never completes: its first statement re-invokes
itself on the same argument, so `copyConstruct` yields `none` at every
fuel. -/
theorem copyConstruct_always_none :
    ∀ (fuel : Nat) (w : World) (obj : GameObject),
      copyConstruct fuel w obj = none := by
  intro fuel
  induction fuel with
  | zero => intro w obj; rfl
  | succ n ih =>
      intro w obj
      simp only [copyConstruct]
      rw [ih w obj]

/-- C9: the claim says `clone()` terminates with a fresh node copying the name
and parent reference. In the source `clone()` runs `new GameObject(*this)` and
the copy constructor's first statement is `new GameObject(obj)` — an
unconditional re-entry into itself — so cloning never produces a node at any
fuel, for any world and any node. -/
theorem C9_clone_never_completes (fuel : Nat) (w : World) (self : ObjId) :
    GameObject.clone fuel w self = none := by
  unfold GameObject.clone
  cases h : w.deref self with
  | none => rfl
  | some obj => exact copyConstruct_always_none fuel w obj

end Pyg
